import Mathlib

/-!
Shallow embedding of the budgetbot Cloudflare Worker
(src/budgetbot/src/index.ts, duplicated with refactored API handlers in
src/unnamed/part_000): the category registry, the calendar engine, the
aggregation engine and the Telegram conversation state machine.

Modelling conventions:
* JavaScript numbers are modelled as rationals; amounts and budgets in the
  program are decimals and every claim is about exact decimal arithmetic.
  The one place where double-precision overflow is observable
  (string-to-number conversion producing Infinity) is modelled by an
  explicit magnitude cutoff at 2^1024.
* Strings are Lean strings; all string processing is done by structural
  recursion on the character list so that concrete runs reduce in the kernel.
* The D1 database is modelled as the list of expense rows plus the (single
  relevant) user's state row; every query the worker issues is keyed by one
  user id, so one user's row suffices for the per-user claims.
-/

set_option maxRecDepth 8192

namespace BudgetBot

/-- Category kinds, from the comment block above `CATEGORIES` in index.ts. -/
inductive CatKind
  | daily
  | monthly
  | other
deriving DecidableEq, Repr

/-- The `CATEGORIES` object literal from index.ts, in declaration order. -/
def CATEGORIES : List (String × CatKind) :=
  [("Meals", CatKind.daily), ("Drinks", CatKind.daily),
   ("Groceries", CatKind.monthly), ("Utilities", CatKind.monthly),
   ("Transport", CatKind.monthly), ("Declan", CatKind.monthly),
   ("Myat", CatKind.monthly), ("Other", CatKind.other)]

/-- The `WEEKDAY_DAILY_BUDGET` constant (SGD). -/
def WEEKDAY_DAILY_BUDGET : ℚ := 50

/-- The `WEEKEND_DAILY_BUDGET` constant (SGD). -/
def WEEKEND_DAILY_BUDGET : ℚ := 80

/-- The `MONTHLY_CATEGORY_BUDGETS` object literal, in declaration order. -/
def MONTHLY_CATEGORY_BUDGETS : List (String × ℚ) :=
  [("Groceries", 300), ("Utilities", 150), ("Transport", 218),
   ("Declan", 100), ("Myat", 200)]

/-- The `DAILY_CATEGORIES`: names of `CATEGORIES` entries of type "daily". -/
def DAILY_CATEGORIES : List String :=
  (CATEGORIES.filter (fun p => p.2 == CatKind.daily)).map Prod.fst

/-- The `MONTHLY_CATEGORIES`: names of `CATEGORIES` entries of type "monthly". -/
def MONTHLY_CATEGORIES : List String :=
  (CATEGORIES.filter (fun p => p.2 == CatKind.monthly)).map Prod.fst

/-- The `OTHER_CATEGORIES`: names of `CATEGORIES` entries of type "other". -/
def OTHER_CATEGORIES : List String :=
  (CATEGORIES.filter (fun p => p.2 == CatKind.other)).map Prod.fst

/-! ## Calendar engine -/

/-- Gregorian leap-year rule, as implemented by the JS `Date` object that
`countWeekdaysWeekends` and `dailyBudgetForSgDateString` delegate to. -/
def isLeapYear (y : Int) : Bool :=
  y.emod 4 == 0 && (y.emod 100 != 0 || y.emod 400 == 0)

/-- Number of days in a month: the value of
`new Date(year, month, 0).getDate()` in index.ts line 134 (JS `Date`
implements the proleptic Gregorian calendar; the legacy two-digit-year
remapping for 0 <= year <= 99 is outside the fidelity range of this
embedding and outside every claim). -/
def daysInMonth (y : Int) (m : Nat) : Nat :=
  if m == 2 then (if isLeapYear y then 29 else 28)
  else if m == 4 || m == 6 || m == 9 || m == 11 then 30
  else 31

/-- Julian day number of the Gregorian date y-m-d (valid for all y when
divisions are floor divisions, which `Int.ediv` is for positive divisors).
For months 13, 14 and overflowing day numbers the formula extrapolates
linearly, exactly as JS `Date.UTC` normalisation does. -/
def jdn (y : Int) (m d : Nat) : Int :=
  let a : Int := (14 - (m : Int)).ediv 12
  let y2 : Int := y + 4800 - a
  let m2 : Int := (m : Int) + 12 * a - 3
  (d : Int) + (153 * m2 + 2).ediv 5 + 365 * y2 + y2.ediv 4 - y2.ediv 100 +
    y2.ediv 400 - 32045

/-- The `new Date(Date.UTC(y, m - 1, d)).getUTCDay()`: 0 = Sunday .. 6 = Saturday. -/
def jsGetUTCDay (y : Int) (m d : Nat) : Nat :=
  ((jdn y m d + 1).emod 7).toNat

/-- Day classification of the spec's Calendar Engine; the condition is the
source's `weekday === 0 || weekday === 6` test. -/
inductive DayClass
  | weekday
  | weekend
deriving DecidableEq, Repr

/-- The `classifyDay` of the spec: weekend iff the day of week is Sunday (0) or
Saturday (6), i.e. the branch condition of `dailyBudgetForSgDateString`. -/
def classifyDay (y : Int) (m d : Nat) : DayClass :=
  if jsGetUTCDay y m d == 0 || jsGetUTCDay y m d == 6 then DayClass.weekend
  else DayClass.weekday

/-- Core of `dailyBudgetForSgDateString` once the date string has been split
into its numeric components (index.ts lines 155-160). -/
def dailyBudgetForSgDate (y : Int) (m d : Nat) : ℚ :=
  if jsGetUTCDay y m d == 0 || jsGetUTCDay y m d == 6 then WEEKEND_DAILY_BUDGET
  else WEEKDAY_DAILY_BUDGET

/-- The `countWeekdaysWeekends(year, month)` from index.ts lines 130-148:
iterates day = 1 .. daysInMonth and counts weekend and weekday days.
Returned pair is (weekdays, weekends). -/
def countWeekdaysWeekends (y : Int) (m : Nat) : Nat × Nat :=
  (List.range (daysInMonth y m)).foldl
    (fun acc i =>
      if jsGetUTCDay y m (i + 1) == 0 || jsGetUTCDay y m (i + 1) == 6 then
        (acc.1, acc.2 + 1)
      else (acc.1 + 1, acc.2))
    (0, 0)

/-- The `monthlyDailyBucketBudget(year, month)` from index.ts lines 166-169. -/
def monthlyDailyBucketBudget (y : Int) (m : Nat) : ℚ :=
  ((countWeekdaysWeekends y m).1 : ℚ) * WEEKDAY_DAILY_BUDGET +
    ((countWeekdaysWeekends y m).2 : ℚ) * WEEKEND_DAILY_BUDGET

/-! ### Calendar sanity checks (concrete dates) -/

example : jsGetUTCDay 1970 1 1 = 4 := by decide
example : jsGetUTCDay 2025 3 15 = 6 := by decide
example : jsGetUTCDay 2024 2 29 = 4 := by decide
example : daysInMonth 2024 2 = 29 := by decide
example : daysInMonth 2025 2 = 28 := by decide
example : countWeekdaysWeekends 2025 3 = (21, 10) := by decide

/-! ## C6: weekday count + weekend count = days in month -/

/-- Helper: a fold that adds exactly one to one of the two components per
element increases the component sum by the length of the list. -/
theorem foldl_daycount_sum (p : Nat → Bool) (l : List Nat) :
    ∀ a b : Nat,
      ((l.foldl
          (fun acc i =>
            if p i then (acc.1, acc.2 + 1) else (acc.1 + 1, acc.2)) (a, b)).1 +
        (l.foldl
          (fun acc i =>
            if p i then (acc.1, acc.2 + 1) else (acc.1 + 1, acc.2)) (a, b)).2)
        = a + b + l.length := by
  induction l with
  | nil => intro a b; simp
  | cons x xs ih =>
    intro a b
    by_cases h : p x = true
    · simp only [List.foldl_cons, h, if_pos]
      rw [ih a (b + 1)]
      simp
      omega
    · simp only [List.foldl_cons, h, if_neg, Bool.false_eq_true,
        not_false_eq_true]
      rw [ih (a + 1) b]
      simp
      omega

/-- C6: for every year and month, `countWeekdaysWeekends` classifies each of
the days 1..daysInMonth exactly once, so its weekday count plus its weekend
count equals the number of days in that month (including leap-year
Februaries, which `daysInMonth` handles by the Gregorian leap rule). -/
theorem countWeekdaysWeekends_total (y : Int) (m : Nat) :
    (countWeekdaysWeekends y m).1 + (countWeekdaysWeekends y m).2 =
      daysInMonth y m := by
  have h := foldl_daycount_sum
    (fun i => jsGetUTCDay y m (i + 1) == 0 || jsGetUTCDay y m (i + 1) == 6)
    (List.range (daysInMonth y m)) 0 0
  simpa [countWeekdaysWeekends] using h

/-! ## C7: weekend classification and the daily budget -/

/-- C7: for every calendar date, the classification is weekend exactly when
the day of week is Sunday (0) or Saturday (6); the daily budget is the
weekend budget exactly on those dates and the weekday budget otherwise; and
concretely 2025-03-15 is a Saturday, with daily budget 80. -/
theorem classifyDay_weekend_budget (y : Int) (m d : Nat)
    (hm1 : 1 ≤ m) (hm2 : m ≤ 12) (hd1 : 1 ≤ d) (hd2 : d ≤ daysInMonth y m) :
    (classifyDay y m d = DayClass.weekend ↔
        (jsGetUTCDay y m d = 0 ∨ jsGetUTCDay y m d = 6)) ∧
    (dailyBudgetForSgDate y m d = WEEKEND_DAILY_BUDGET ↔
        classifyDay y m d = DayClass.weekend) ∧
    (dailyBudgetForSgDate y m d ≠ WEEKEND_DAILY_BUDGET →
        dailyBudgetForSgDate y m d = WEEKDAY_DAILY_BUDGET) ∧
    classifyDay 2025 3 15 = DayClass.weekend ∧
    dailyBudgetForSgDate 2025 3 15 = WEEKEND_DAILY_BUDGET ∧
    jsGetUTCDay 2025 3 15 = 6 := by
  refine ⟨?_, ?_, ?_, by decide, by decide, by decide⟩
  · unfold classifyDay
    by_cases h : (jsGetUTCDay y m d == 0 || jsGetUTCDay y m d == 6) = true
    · simp only [h, if_pos]
      simp only [Bool.or_eq_true, beq_iff_eq] at h
      simpa using h
    · simp only [h, if_neg, Bool.false_eq_true, not_false_eq_true]
      simp only [Bool.or_eq_true, beq_iff_eq] at h
      push_neg at h
      constructor
      · intro hcontra; exact absurd hcontra (by simp)
      · intro hcontra; exact absurd hcontra (by tauto)
  · unfold dailyBudgetForSgDate classifyDay
    by_cases h : (jsGetUTCDay y m d == 0 || jsGetUTCDay y m d == 6) = true
    · simp [h]
    · simp only [h, if_neg, Bool.false_eq_true, not_false_eq_true]
      constructor
      · intro hcontra
        exact absurd hcontra (by unfold WEEKDAY_DAILY_BUDGET WEEKEND_DAILY_BUDGET; norm_num)
      · intro hcontra; exact absurd hcontra (by simp)
  · unfold dailyBudgetForSgDate
    by_cases h : (jsGetUTCDay y m d == 0 || jsGetUTCDay y m d == 6) = true
    · simp [h]
    · simp [h]

/-- Witness for C7 at the concrete date 2025-03-15. -/
theorem classifyDay_weekend_budget_witness :
    (1 ≤ 3 ∧ 3 ≤ 12 ∧ 1 ≤ 15 ∧ 15 ≤ daysInMonth 2025 3) ∧
    ((classifyDay 2025 3 15 = DayClass.weekend ↔
        (jsGetUTCDay 2025 3 15 = 0 ∨ jsGetUTCDay 2025 3 15 = 6)) ∧
      (dailyBudgetForSgDate 2025 3 15 = WEEKEND_DAILY_BUDGET ↔
        classifyDay 2025 3 15 = DayClass.weekend) ∧
      (dailyBudgetForSgDate 2025 3 15 ≠ WEEKEND_DAILY_BUDGET →
        dailyBudgetForSgDate 2025 3 15 = WEEKDAY_DAILY_BUDGET) ∧
      classifyDay 2025 3 15 = DayClass.weekend ∧
      dailyBudgetForSgDate 2025 3 15 = WEEKEND_DAILY_BUDGET ∧
      jsGetUTCDay 2025 3 15 = 6) :=
  ⟨by decide,
    classifyDay_weekend_budget 2025 3 15 (by decide) (by decide) (by decide)
      (by decide)⟩

/-! ## String helpers (structural-recursion models of the JS string ops) -/

/-- ASCII portion of the JS whitespace class used by `trim` and `\s`
(the claims only exercise ASCII input). -/
def isJsSpace (c : Char) : Bool :=
  c == ' ' || c == '\t' || c == '\n' || c == '\r' ||
    c == Char.ofNat 11 || c == Char.ofNat 12

/-- The `String.prototype.trim` (restricted to the ASCII whitespace class). -/
def jsTrim (s : String) : String :=
  ⟨((s.data.dropWhile isJsSpace).reverse.dropWhile isJsSpace).reverse⟩

/-- Does the string start with "/" (the `text.startsWith("/")` test)? -/
def startsWithSlash (s : String) : Bool :=
  match s.data with
  | c :: _ => c == '/'
  | [] => false

/-- The `text.split(/\s+/)[0]` for a trimmed string starting with a
non-whitespace character: the maximal whitespace-free initial segment. -/
def firstToken (s : String) : String :=
  ⟨s.data.takeWhile (fun c => !isJsSpace c)⟩

/-- Numeric value of a list of decimal digits (most significant first). -/
def decDigitsVal (l : List Char) : Nat :=
  l.foldl (fun a c => a * 10 + (c.toNat - 48)) 0

/-- Split a character list on the '-' character (JS `split("-")`). -/
def splitOnDash : List Char → List (List Char)
  | [] => [[]]
  | '-' :: rest => [] :: splitOnDash rest
  | c :: rest =>
    match splitOnDash rest with
    | [] => [[c]]
    | first :: more => (c :: first) :: more

example : splitOnDash "2025-03-15".data = ["2025".data, "03".data, "15".data] := by decide

/-! ## JS string-to-number conversion (`Number(text)`)

`handleTelegramUpdate` records an expense when `Number.isFinite(Number(text))`
holds. `jsStringToNumberFinite` models the composition: it returns the exact
rational value of `Number(text)` when that value is finite, and `none` when
`Number(text)` is NaN or an infinity. The input is the already-trimmed text
(ECMAScript ToNumber itself trims before parsing, so the extra trim done by
the caller is harmless). Magnitudes at or beyond 2^1024 overflow the double
range and convert to Infinity; the cutoff is modelled exactly at 2^1024
(double rounding within half an ulp of the cutoff is not modelled, and no
claim exercises it). -/

/-- Is the character a hexadecimal digit? -/
def isHexDigitChar (c : Char) : Bool :=
  c.isDigit || ('a' ≤ c && c ≤ 'f') || ('A' ≤ c && c ≤ 'F')

/-- Is the character an octal digit? -/
def isOctalDigitChar (c : Char) : Bool := '0' ≤ c && c ≤ '7'

/-- Is the character a binary digit? -/
def isBinaryDigitChar (c : Char) : Bool := c == '0' || c == '1'

/-- Numeric value of one hexadecimal digit. -/
def hexDigitVal (c : Char) : Nat :=
  if c.isDigit then c.toNat - 48
  else if 'a' ≤ c && c ≤ 'f' then c.toNat - 87
  else c.toNat - 55

/-- Value of a digit list in the given radix (most significant first). -/
def radixVal (radix : Nat) (l : List Char) : Nat :=
  l.foldl (fun a c => a * radix + hexDigitVal c) 0

/-- Parse the optional exponent part of a decimal literal; `some e` when the
remaining characters are empty or a well-formed exponent, `none` otherwise. -/
def parseExponentPart : List Char → Option Int
  | [] => some 0
  | c :: rest =>
    if c == 'e' || c == 'E' then
      match rest with
      | '+' :: ds =>
        if ds ≠ [] && ds.all Char.isDigit then some (decDigitsVal ds : Int)
        else none
      | '-' :: ds =>
        if ds ≠ [] && ds.all Char.isDigit then some (-(decDigitsVal ds : Int))
        else none
      | ds =>
        if ds ≠ [] && ds.all Char.isDigit then some (decDigitsVal ds : Int)
        else none
    else none

/-- Exact rational value of integer part `ip`, fraction part `fp` and
exponent `e`: (ip.fp) * 10^e, expressed with `mkRat` so that concrete
inputs reduce in the kernel. -/
def decimalValue (ip fp : List Char) (e : Int) : ℚ :=
  let mantissa : Nat := decDigitsVal ip * 10 ^ fp.length + decDigitsVal fp
  if 0 ≤ e then mkRat ((mantissa : Int) * (10 : Int) ^ e.toNat) (10 ^ fp.length)
  else mkRat (mantissa : Int) (10 ^ fp.length * 10 ^ (-e).toNat)

/-- Parse an unsigned ECMAScript StrUnsignedDecimalLiteral (without the
`Infinity` production, handled by the caller). -/
def parseUnsignedDecimal (l : List Char) : Option ℚ :=
  let ip := l.takeWhile Char.isDigit
  let r1 := l.dropWhile Char.isDigit
  match r1 with
  | '.' :: r2 =>
    let fp := r2.takeWhile Char.isDigit
    let r3 := r2.dropWhile Char.isDigit
    if ip.isEmpty && fp.isEmpty then none
    else (parseExponentPart r3).map (fun e => decimalValue ip fp e)
  | _ =>
    if ip.isEmpty then none
    else (parseExponentPart r1).map (fun e => decimalValue ip [] e)

/-- Mathematical value of `Number(s)` for a trimmed string `s`, with `none`
for NaN and for the two signed `Infinity` literals. -/
def jsToNumberValue (s : String) : Option ℚ :=
  match s.data with
  | [] => some 0
  | '+' :: rest =>
    if rest = "Infinity".data then none else parseUnsignedDecimal rest
  | '-' :: rest =>
    if rest = "Infinity".data then none
    else (parseUnsignedDecimal rest).map Neg.neg
  | l =>
    if l = "Infinity".data then none
    else
      match l with
      | '0' :: c :: rest =>
        if (c == 'x' || c == 'X') && rest ≠ [] && rest.all isHexDigitChar then
          some (radixVal 16 rest : ℚ)
        else if (c == 'o' || c == 'O') && rest ≠ [] && rest.all isOctalDigitChar then
          some (radixVal 8 rest : ℚ)
        else if (c == 'b' || c == 'B') && rest ≠ [] && rest.all isBinaryDigitChar then
          some (radixVal 2 rest : ℚ)
        else parseUnsignedDecimal l
      | _ => parseUnsignedDecimal l

/-- 2^1024, the smallest magnitude that overflows a double, written as an
explicit numeral so that concrete runs reduce without large exponentiation. -/
def DOUBLE_OVERFLOW : Nat :=
  179769313486231590772930519078902473361797697894230657273430081157732675805500963132708477322407536021120113879871393357658789768814416622492847430639474124377767893424865485276302219601246094119453082952085005768838150682342462881473913110540827237163350510684586298239947245938479716304835356329624224137216

example : DOUBLE_OVERFLOW = 2 ^ 1024 := by norm_num [DOUBLE_OVERFLOW]

/-- Finite-double overflow cutoff: values of magnitude at least 2^1024
convert to an infinity (the comparison 2^1024 <= |q| is expressed on the
numerator and denominator to stay in natural-number arithmetic). -/
def finiteCutoff (q : ℚ) : Option ℚ :=
  if DOUBLE_OVERFLOW * q.den ≤ q.num.natAbs then none else some q

/-- The `Number(s)` for trimmed `s`, keeping only finite results: `some q` iff
`Number.isFinite(Number(s))` is true and the converted value is `q`. -/
def jsStringToNumberFinite (s : String) : Option ℚ :=
  (jsToNumberValue s).bind finiteCutoff

example : jsStringToNumberFinite "" = some 0 := by decide
example : jsStringToNumberFinite "abc" = none := by decide
example : jsStringToNumberFinite "12.50" = some (mkRat 25 2) := by decide
example : jsStringToNumberFinite "-5" = some (mkRat (-5) 1) := by decide
example : jsStringToNumberFinite "Infinity" = none := by decide
example : jsStringToNumberFinite "-Infinity" = none := by decide
example : jsStringToNumberFinite "NaN" = none := by decide
example : jsStringToNumberFinite "0x10" = some (mkRat 16 1) := by decide
example : jsStringToNumberFinite "1e3" = some (mkRat 1000 1) := by decide
example : jsStringToNumberFinite "1e2.5" = none := by decide
example : jsStringToNumberFinite ".5" = some (mkRat 1 2) := by decide
example : jsStringToNumberFinite "." = none := by decide
example : jsStringToNumberFinite "1,000" = none := by decide

/-- Spec-modelled grammar of "a finite decimal number (integer or
fractional, optionally negative)" (spec section 4.4): an optional minus
sign, one or more decimal digits, optionally followed by a decimal point and
one or more decimal digits. Used only to state claims against the spec's
wording; the code-side conversion is `jsStringToNumberFinite`. -/
def specUnsignedDecimal (l : List Char) : Option ℚ :=
  let ip := l.takeWhile Char.isDigit
  let rest := l.dropWhile Char.isDigit
  if ip.isEmpty then none
  else
    match rest with
    | [] => some (mkRat (decDigitsVal ip) 1)
    | '.' :: fp =>
      if fp ≠ [] && fp.all Char.isDigit then
        some (mkRat (decDigitsVal ip * 10 ^ fp.length + decDigitsVal fp) (10 ^ fp.length))
      else none
    | _ => none

/-- Spec-modelled: "free-text parseable as a finite decimal number (integer
or fractional, optionally negative)". -/
def specFiniteDecimal (s : String) : Option ℚ :=
  match s.data with
  | '-' :: rest => (specUnsignedDecimal rest).map Neg.neg
  | l => specUnsignedDecimal l

example : specFiniteDecimal "12.50" = some (mkRat 25 2) := by decide
example : specFiniteDecimal "-5" = some (mkRat (-5) 1) := by decide
example : specFiniteDecimal "" = none := by decide
example : specFiniteDecimal "abc" = none := by decide

/-! ## Data model -/

/-- One row of the `expenses` table (migrations/0001_init.sql), as written by
`insertExpense`. -/
structure Expense where
  tsUtc : String
  tsSgDate : String
  tsSgMonth : String
  userId : Int
  category : String
  amount : ℚ
deriving DecidableEq, Repr

/-- One row of the `user_state` table: `{step, category}` as read by
`getUserState`. -/
structure UserState where
  step : String
  category : Option String
deriving DecidableEq, Repr

/-- The D1 database restricted to one user: the append-only expense rows and
that user's conversation-state row (`none` = no row, i.e. Idle). Every
statement the worker issues is keyed by a single user id, so one user's
state row is the only mutable state a claim can observe. -/
structure Db where
  expenses : List Expense
  userState : Option UserState
deriving DecidableEq, Repr

/-- The value of `nowSgLocal()`: the current UTC instant and its SG-local
date/month strings. The Intl formatting backend is a collaborator; its
output is taken as an input here. -/
structure SgNow where
  tsUtc : String
  tsSgDate : String
  tsSgMonth : String
  year : Int
  month : Nat
deriving DecidableEq, Repr

/-! ## Date-string validation (`normalizeSgDateString`) -/

/-- The regular-expression test of index.ts line 123: ten characters shaped
as four digits, a dash, two digits, a dash, two digits. -/
def matchesDatePattern (s : String) : Bool :=
  match s.data with
  | [a, b, c, d, '-', e, f, '-', g, h] =>
    a.isDigit && b.isDigit && c.isDigit && d.isDigit && e.isDigit &&
      f.isDigit && g.isDigit && h.isDigit
  | _ => false

/-- The `normalizeSgDateString` from index.ts lines 121-125. -/
def normalizeSgDateString (s : String) : Option String :=
  if matchesDatePattern s then some s else none

/-- Spec-modelled: "parseable as a real calendar date in strict YYYY-MM-DD
form" — the pattern matches and the three components denote an actual
Gregorian calendar date. Used only to state C2 against the spec's wording. -/
def isRealCalendarDate (s : String) : Bool :=
  match s.data with
  | [a, b, c, d, '-', e, f, '-', g, h] =>
    (a.isDigit && b.isDigit && c.isDigit && d.isDigit && e.isDigit &&
        f.isDigit && g.isDigit && h.isDigit) &&
      (decide (1 ≤ decDigitsVal [e, f]) && decide (decDigitsVal [e, f] ≤ 12) &&
        decide (1 ≤ decDigitsVal [g, h]) &&
        decide (decDigitsVal [g, h] ≤
          daysInMonth (decDigitsVal [a, b, c, d] : Int) (decDigitsVal [e, f])))
  | _ => false

example : isRealCalendarDate "2025-03-15" = true := by decide
example : isRealCalendarDate "2025-13-40" = false := by decide
example : matchesDatePattern "2025-13-40" = true := by decide
example : matchesDatePattern "2025-3-15" = false := by decide

/-- The `dailyBudgetForSgDateString` from index.ts lines 153-161: split the
string on "-", convert the three leading components, and pick the weekend or
weekday budget from the UTC day of week. A component that is not a plain
digit string makes the converted date NaN, in which case the weekday branch
is taken (NaN compares false to 0 and 6); only well-formed date strings
reach this function in the worker. -/
def parseDecNatComponent (l : List Char) : Option Nat :=
  if l ≠ [] && l.all Char.isDigit then some (decDigitsVal l) else none

def dailyBudgetForSgDateString (dateStr : String) : ℚ :=
  match splitOnDash dateStr.data with
  | ys :: ms :: ds :: _ =>
    match parseDecNatComponent ys, parseDecNatComponent ms, parseDecNatComponent ds with
    | some y, some m, some d => dailyBudgetForSgDate (y : Int) m d
    | _, _, _ => WEEKDAY_DAILY_BUDGET
  | _ => WEEKDAY_DAILY_BUDGET

example : dailyBudgetForSgDateString "2025-03-15" = WEEKEND_DAILY_BUDGET := by decide
example : dailyBudgetForSgDateString "2025-03-17" = WEEKDAY_DAILY_BUDGET := by decide

/-! ## Aggregation engine (`sumForDate` / `sumForMonth`)

The D1 query returns one row per category that has at least one matching
expense: `SELECT category, SUM(amount) ... GROUP BY category`. The grouped
result is modelled per category of the requested list (the requested lists
are duplicate-free, so this enumerates exactly the groups); the SQL row
order is irrelevant to every claim because the loops are order-insensitive
up to the key-distinctness hypothesis of C10. -/

/-- Sum of the amounts of the rows matching a bucket condition `p` (the
`ts_sg_date = ?` or `ts_sg_month = ?` clause) and one category: the value of
`SUM(amount)` for that category's group. -/
def groupSumBy (p : Expense → Bool) (store : List Expense) (c : String) : ℚ :=
  ((store.filter (fun r => p r && r.category == c)).map Expense.amount).sum

/-- Grouped rows returned by the query for the categories in `cats`:
categories with no matching rows produce no group. -/
def rowsBy (p : Expense → Bool) (store : List Expense) (cats : List String) :
    List (String × ℚ) :=
  cats.filterMap (fun c =>
    if (store.filter (fun r => p r && r.category == c)).isEmpty then none
    else some (c, groupSumBy p store c))

/-- Direct row-level sum over a bucket condition and a category set: the
mathematical value the grouped query decomposes. -/
def spendBy (p : Expense → Bool) (store : List Expense) (cats : List String) : ℚ :=
  ((store.filter (fun r => p r && cats.contains r.category)).map
    Expense.amount).sum

/-- The bucket condition `ts_sg_date = sgDate`. -/
def onDate (sgDate : String) : Expense → Bool := fun r => r.tsSgDate == sgDate

/-- The bucket condition `ts_sg_month = sgMonth`. -/
def onMonth (sgMonth : String) : Expense → Bool := fun r => r.tsSgMonth == sgMonth

/-- Grouped rows of the date query of `sumForDate`. -/
def rowsForDate (store : List Expense) (sgDate : String) (cats : List String) :
    List (String × ℚ) :=
  rowsBy (onDate sgDate) store cats

/-- Grouped rows of the month query of `sumForMonth`. -/
def rowsForMonth (store : List Expense) (sgMonth : String) (cats : List String) :
    List (String × ℚ) :=
  rowsBy (onMonth sgMonth) store cats

/-- JS object assignment `byCategory[cat] = amt` on a string-keyed object:
overwrite in place if the key exists, append otherwise. -/
def setKey (m : List (String × ℚ)) (k : String) (v : ℚ) : List (String × ℚ) :=
  if m.any (fun p => p.1 == k) then
    m.map (fun p => if p.1 == k then (k, v) else p)
  else m ++ [(k, v)]

/-- The row loop of `sumForDate` (index.ts lines 248-255): the running total
is accumulated inside the loop while the per-category object is built. -/
def aggDate (rows : List (String × ℚ)) : ℚ × List (String × ℚ) :=
  rows.foldl (fun acc row => (acc.1 + row.2, setKey acc.2 row.1 row.2)) (0, [])

/-- The row loop of `sumForMonth` (index.ts lines 279-288): the per-category
object is built first and the total is recomputed afterwards by reducing
over `Object.values(byCategory)`. -/
def aggMonth (rows : List (String × ℚ)) : ℚ × List (String × ℚ) :=
  (((rows.foldl (fun m row => setKey m row.1 row.2) []).map Prod.snd).foldl
      (· + ·) 0,
    rows.foldl (fun m row => setKey m row.1 row.2) [])

/-- The `sumForDate(env, sgDate, categories)` returning (total, byCategory). -/
def sumForDate (store : List Expense) (sgDate : String) (cats : List String) :
    ℚ × List (String × ℚ) :=
  if cats.isEmpty then (0, []) else aggDate (rowsForDate store sgDate cats)

/-- The `sumForMonth(env, sgMonth, categories)` returning (total, byCategory). -/
def sumForMonth (store : List Expense) (sgMonth : String) (cats : List String) :
    ℚ × List (String × ℚ) :=
  if cats.isEmpty then (0, []) else aggMonth (rowsForMonth store sgMonth cats)

/-! ## Daily and monthly summaries -/

/-- The `DailySummaryData` record of src/unnamed/part_000 (timezone field
omitted: it is the constant "Asia/Singapore"). -/
structure DailySummaryData where
  date : String
  budget_daily : ℚ
  spent_daily : ℚ
  remaining_daily : ℚ
  by_category : List (String × ℚ)
deriving DecidableEq, Repr

/-- The summary computation shared by `getDailySummaryData`,
`apiDailySummary` and `handleToday` once the date string is resolved. -/
def dailySummaryCore (store : List Expense) (sgDate : String) : DailySummaryData :=
  { date := sgDate
    budget_daily := dailyBudgetForSgDateString sgDate
    spent_daily := (sumForDate store sgDate DAILY_CATEGORIES).1
    remaining_daily :=
      dailyBudgetForSgDateString sgDate - (sumForDate store sgDate DAILY_CATEGORIES).1
    by_category := (sumForDate store sgDate DAILY_CATEGORIES).2 }

/-- The `getDailySummaryData(env, dateStr)` from src/unnamed/part_000 (the same
logic as `apiDailySummary` in index.ts, whose 400 response is the `.error`
case here). A JS falsy date string — absent or empty — falls back to the
current SG date. -/
def getDailySummaryData (now : SgNow) (store : List Expense)
    (dateStr : Option String) : Except String DailySummaryData :=
  match dateStr with
  | none => Except.ok (dailySummaryCore store now.tsSgDate)
  | some ds =>
    if ds = "" then Except.ok (dailySummaryCore store now.tsSgDate)
    else
      match normalizeSgDateString ds with
      | none => Except.error "Invalid date format, use YYYY-MM-DD"
      | some sgDate => Except.ok (dailySummaryCore store sgDate)

/-- The `MonthlySummaryData` record of src/unnamed/part_000 (timezone and
the static `fixed_monthly_budgets` map omitted; `fixedBudgetTotal` is the
intermediate value of both monthly-summary implementations, displayed by
`sendMonthSummary` and determining `total_budget_tracked`). -/
structure MonthlySummaryData where
  year : Int
  month : Nat
  weekdays : Nat
  weekends : Nat
  monthly_daily_budget : ℚ
  fixedBudgetTotal : ℚ
  spent_daily : ℚ
  spent_daily_by_category : List (String × ℚ)
  spent_monthly : ℚ
  spent_monthly_by_category : List (String × ℚ)
  spent_other : ℚ
  spent_other_by_category : List (String × ℚ)
  total_budget_tracked : ℚ
  total_spent_tracked : ℚ
  remaining_tracked : ℚ
deriving DecidableEq, Repr

/-- The `String(month).padStart(2, "0")`. -/
def pad2 (n : Nat) : String :=
  if n < 10 then "0" ++ toString n else toString n

/-- The template `${year}-${String(month).padStart(2, "0")}`. -/
def mkSgMonth (y : Int) (m : Nat) : String :=
  toString y ++ "-" ++ pad2 m

example : mkSgMonth 2025 3 = "2025-03" := by decide

/-- The monthly summary computation duplicated verbatim between
`sendMonthSummary` (index.ts lines 511-544) and `apiMonthlySummary` /
`getMonthlySummaryData` (index.ts lines 642-669, part_000 lines 655-700),
for an already-resolved year and month. -/
def monthlySummaryCore (store : List Expense) (y : Int) (m : Nat) :
    MonthlySummaryData :=
  { year := y
    month := m
    weekdays := (countWeekdaysWeekends y m).1
    weekends := (countWeekdaysWeekends y m).2
    monthly_daily_budget := monthlyDailyBucketBudget y m
    fixedBudgetTotal := (MONTHLY_CATEGORY_BUDGETS.map Prod.snd).foldl (· + ·) 0
    spent_daily := (sumForMonth store (mkSgMonth y m) DAILY_CATEGORIES).1
    spent_daily_by_category := (sumForMonth store (mkSgMonth y m) DAILY_CATEGORIES).2
    spent_monthly := (sumForMonth store (mkSgMonth y m) MONTHLY_CATEGORIES).1
    spent_monthly_by_category :=
      (sumForMonth store (mkSgMonth y m) MONTHLY_CATEGORIES).2
    spent_other := (sumForMonth store (mkSgMonth y m) OTHER_CATEGORIES).1
    spent_other_by_category := (sumForMonth store (mkSgMonth y m) OTHER_CATEGORIES).2
    total_budget_tracked :=
      monthlyDailyBucketBudget y m + (MONTHLY_CATEGORY_BUDGETS.map Prod.snd).foldl (· + ·) 0
    total_spent_tracked :=
      (sumForMonth store (mkSgMonth y m) DAILY_CATEGORIES).1 +
        (sumForMonth store (mkSgMonth y m) MONTHLY_CATEGORIES).1
    remaining_tracked :=
      monthlyDailyBucketBudget y m +
          (MONTHLY_CATEGORY_BUDGETS.map Prod.snd).foldl (· + ·) 0 -
        ((sumForMonth store (mkSgMonth y m) DAILY_CATEGORIES).1 +
          (sumForMonth store (mkSgMonth y m) MONTHLY_CATEGORIES).1) }

/-- The `getMonthlySummaryData(env, year, month)` from src/unnamed/part_000
(the same resolution and validation as `apiMonthlySummary`, whose 400
response is the `.error` case). Year and month parameters are modelled as
already-finite integers: a NaN query parameter is rejected by the
`Number.isFinite` guard in the source before this logic runs, and no claim
exercises a non-integral month. -/
def getMonthlySummaryData (now : SgNow) (store : List Expense)
    (year? month? : Option Int) : Except String MonthlySummaryData :=
  let y := year?.getD now.year
  let m := month?.getD (now.month : Int)
  if m < 1 || 12 < m then Except.error "Invalid year or month"
  else Except.ok (monthlySummaryCore store y m.toNat)

/-! ## Conversation state machine (`handleTelegramUpdate`)

The handler is modelled from the point after the boundary checks of
index.ts lines 348-365 (message present, user and chat ids present, sender
on the allow-list): the claims about the state machine all concern an
allowed user's text input. -/

/-- The own property names of `Object.prototype` in an ECMAScript realm.
The `in` operator used at index.ts line 396 (`text in CATEGORIES`) performs
a HasProperty lookup, which walks the prototype chain of the object literal
`CATEGORIES`, so these names all test true even though they are not
configured categories. -/
def objectPrototypeKeys : List String :=
  ["constructor", "hasOwnProperty", "isPrototypeOf", "propertyIsEnumerable",
   "toLocaleString", "toString", "valueOf", "__defineGetter__",
   "__defineSetter__", "__lookupGetter__", "__lookupSetter__", "__proto__"]

/-- The value of the JS expression `text in CATEGORIES`. -/
def jsInCategories (s : String) : Bool :=
  (CATEGORIES.map Prod.fst).contains s || objectPrototypeKeys.contains s

/-- JS truthiness of the nullable string `state.category` as tested at
index.ts line 414 (`state.category` is falsy when null or empty). -/
def truthyCategory : Option String → Bool
  | none => false
  | some c => c != ""

/-- Outbound messages, abstracted to their identity and the data they
interpolate (message templates are out of the spec's scope). -/
inductive Reply
  | startMsg
  | choosePrompt
  | chooseAgainPrompt
  | amountPrompt (category : String)
  | invalidNumberPrompt
  | recorded (amount : ℚ) (category : String)
  | todaySummary (s : DailySummaryData)
  | monthSummary (s : MonthlySummaryData)
  | unknownCommand
  | usageHint
deriving DecidableEq, Repr

/-- The row written by `insertExpense(env, userId, category, amount)`:
timestamps come from `nowSgLocal()`. -/
def mkExpense (now : SgNow) (uid : Int) (category : String) (amount : ℚ) :
    Expense :=
  { tsUtc := now.tsUtc
    tsSgDate := now.tsSgDate
    tsSgMonth := now.tsSgMonth
    userId := uid
    category := category
    amount := amount }

/-- The `handleTelegramUpdate` from index.ts lines 348-443, as a pure function
of the current time, the sender, the database and the message text,
returning the new database and the outbound messages in order. -/
def handleTelegramUpdate (now : SgNow) (uid : Int) (db : Db)
    (textRaw : String) : Db × List Reply :=
  let text := jsTrim textRaw
  if startsWithSlash text then
    let cleared : Db := { db with userState := none }
    let cmd := firstToken text
    if cmd == "/start" then (cleared, [Reply.startMsg])
    else if cmd == "/add" then
      ({ cleared with userState := some ⟨"choose_category", none⟩ },
        [Reply.choosePrompt])
    else if cmd == "/today" then
      (cleared, [Reply.todaySummary (dailySummaryCore cleared.expenses now.tsSgDate)])
    else if cmd == "/month" then
      (cleared, [Reply.monthSummary (monthlySummaryCore cleared.expenses now.year now.month)])
    else (cleared, [Reply.unknownCommand])
  else
    match db.userState with
    | some st =>
      if st.step == "choose_category" then
        if jsInCategories text then
          ({ db with userState := some ⟨"await_amount", some text⟩ },
            [Reply.amountPrompt text])
        else (db, [Reply.chooseAgainPrompt])
      else if st.step == "await_amount" && truthyCategory st.category then
        match jsStringToNumberFinite text with
        | none => (db, [Reply.invalidNumberPrompt])
        | some amount =>
          ({ expenses :=
                db.expenses ++ [mkExpense now uid (st.category.getD "") amount],
              userState := none },
            [Reply.recorded amount (st.category.getD "")])
      else (db, [Reply.usageHint])
    | none => (db, [Reply.usageHint])

/-- A concrete `nowSgLocal()` value used by the closed theorems. -/
def sampleNow : SgNow :=
  { tsUtc := "2025-03-15T04:00:00.000Z"
    tsSgDate := "2025-03-15"
    tsSgMonth := "2025-03"
    year := 2025
    month := 3 }

example :
    (handleTelegramUpdate sampleNow 1 ⟨[], some ⟨"choose_category", none⟩⟩
      "Meals").1.userState = some ⟨"await_amount", some "Meals"⟩ := by decide

example :
    (handleTelegramUpdate sampleNow 1 ⟨[], some ⟨"choose_category", none⟩⟩
      "Pizza").1.userState = some ⟨"choose_category", none⟩ := by decide

example :
    (handleTelegramUpdate sampleNow 1 ⟨[], some ⟨"await_amount", some "Meals"⟩⟩
      "12.50").1
      = ⟨[mkExpense sampleNow 1 "Meals" (mkRat 25 2)], none⟩ := by decide

/-! ## Aggregation lemmas -/

theorem setKey_of_fresh (m : List (String × ℚ)) (k : String) (v : ℚ)
    (h : m.any (fun p => p.1 == k) = false) : setKey m k v = m ++ [(k, v)] := by
  simp only [setKey, h]
  simp

theorem aggDate_foldl (rows : List (String × ℚ)) :
    ∀ (t : ℚ) (m : List (String × ℚ)),
      rows.foldl (fun acc row => (acc.1 + row.2, setKey acc.2 row.1 row.2)) (t, m)
        = (t + (rows.map Prod.snd).sum,
            rows.foldl (fun m row => setKey m row.1 row.2) m) := by
  induction rows with
  | nil => intro t m; simp
  | cons r rs ih =>
    intro t m
    simp only [List.foldl_cons, List.map_cons, List.sum_cons]
    rw [ih]
    congr 1
    ring

theorem foldl_setKey_fresh (rows : List (String × ℚ)) :
    ∀ m : List (String × ℚ),
      (∀ r ∈ rows, m.any (fun p => p.1 == r.1) = false) →
      (rows.map Prod.fst).Nodup →
      rows.foldl (fun m row => setKey m row.1 row.2) m = m ++ rows := by
  induction rows with
  | nil => intro m _ _; simp
  | cons r rs ih =>
    intro m hfresh hnodup
    simp only [List.map_cons, List.nodup_cons] at hnodup
    simp only [List.foldl_cons]
    rw [setKey_of_fresh m r.1 r.2 (hfresh r (List.mem_cons_self r rs))]
    have hA : ∀ x ∈ rs, (m ++ [(r.1, r.2)]).any (fun p => p.1 == x.1) = false := by
      intro x hx
      have h1 : m.any (fun p => p.1 == x.1) = false :=
        hfresh x (List.mem_cons_of_mem r hx)
      have h2 : (r.1 == x.1) = false := by
        apply beq_eq_false_iff_ne.mpr
        intro heq
        exact hnodup.1 (heq ▸ List.mem_map_of_mem Prod.fst hx)
      simp [List.any_append, h1, h2]
    rw [ih (m ++ [(r.1, r.2)]) hA hnodup.2]
    simp

theorem aggDate_eq (rows : List (String × ℚ))
    (h : (rows.map Prod.fst).Nodup) :
    aggDate rows = ((rows.map Prod.snd).sum, rows) := by
  unfold aggDate
  rw [aggDate_foldl rows 0 []]
  rw [foldl_setKey_fresh rows [] (by intro r _; simp) h]
  simp

theorem aggMonth_eq (rows : List (String × ℚ))
    (h : (rows.map Prod.fst).Nodup) :
    aggMonth rows = ((rows.map Prod.snd).sum, rows) := by
  unfold aggMonth
  rw [foldl_setKey_fresh rows [] (by intro r _; simp) h]
  simp [← List.sum_eq_foldl]

/-- C10: on grouped rows with pairwise-distinct category keys, the daily
aggregation loop (which accumulates the total while building the map) and
the monthly aggregation loop (which rebuilds the total by reducing over the
map's values afterwards) each return a total equal to the sum of their
per-category values, and the two implementations are extensionally equal. -/
theorem aggregation_implementations_agree (rows : List (String × ℚ))
    (h : (rows.map Prod.fst).Nodup) :
    (aggDate rows).1 = ((aggDate rows).2.map Prod.snd).sum ∧
    (aggMonth rows).1 = ((aggMonth rows).2.map Prod.snd).sum ∧
    aggDate rows = aggMonth rows := by
  rw [aggDate_eq rows h, aggMonth_eq rows h]
  exact ⟨rfl, rfl, rfl⟩

/-- Witness for C10 on concrete grouped rows. -/
theorem aggregation_implementations_agree_witness :
    (([("Meals", (5 : ℚ)), ("Drinks", 3)].map Prod.fst).Nodup) ∧
    ((aggDate [("Meals", (5 : ℚ)), ("Drinks", 3)]).1 =
        ((aggDate [("Meals", (5 : ℚ)), ("Drinks", 3)]).2.map Prod.snd).sum ∧
      (aggMonth [("Meals", (5 : ℚ)), ("Drinks", 3)]).1 =
        ((aggMonth [("Meals", (5 : ℚ)), ("Drinks", 3)]).2.map Prod.snd).sum ∧
      aggDate [("Meals", (5 : ℚ)), ("Drinks", 3)] =
        aggMonth [("Meals", (5 : ℚ)), ("Drinks", 3)]) :=
  ⟨by decide,
    aggregation_implementations_agree [("Meals", (5 : ℚ)), ("Drinks", 3)]
      (by decide)⟩

/-! ## From grouped sums to direct row sums -/

theorem filter_map_sum_cons (q : Expense → Bool) (l : List Expense)
    (r : Expense) :
    ((List.filter q (r :: l)).map Expense.amount).sum
      = (if q r then r.amount else 0) +
        ((List.filter q l).map Expense.amount).sum := by
  by_cases h : q r = true <;> simp [List.filter_cons, h]

theorem spendBy_nil (p : Expense → Bool) (store : List Expense) :
    spendBy p store [] = 0 := by
  simp [spendBy]

theorem spendBy_cons (p : Expense → Bool) (c : String) (cs : List String)
    (hc : cs.contains c = false) (store : List Expense) :
    spendBy p store (c :: cs) = groupSumBy p store c + spendBy p store cs := by
  induction store with
  | nil => simp [spendBy, groupSumBy]
  | cons r rest ih =>
    unfold spendBy groupSumBy at ih ⊢
    simp only [List.contains_cons] at ih ⊢
    rw [filter_map_sum_cons, filter_map_sum_cons, filter_map_sum_cons]
    by_cases hp : p r = true
    · by_cases h1 : (r.category == c) = true
      · have hcat : r.category = c := by simpa using h1
        have h2 : cs.contains r.category = false := by rw [hcat]; exact hc
        simp only [hp, h1, h2, List.contains_cons, Bool.true_and,
          Bool.or_false, if_pos, Bool.and_false, Bool.false_eq_true,
          not_false_eq_true, if_neg]
        rw [ih]
        ring
      · by_cases h3 : cs.contains r.category = true
        · simp only [hp, h1, h3, List.contains_cons, Bool.true_and,
            Bool.false_or, if_pos, Bool.false_eq_true, not_false_eq_true,
            if_neg]
          rw [ih]
          ring
        · simp only [hp, h1, h3, List.contains_cons, Bool.true_and,
            Bool.or_self, Bool.false_eq_true, not_false_eq_true, if_neg]
          rw [ih]
          ring
    · simp only [hp, Bool.false_and, Bool.false_eq_true, not_false_eq_true,
        if_neg]
      rw [ih]
      ring

theorem map_groupSum_eq_spendBy (p : Expense → Bool) (store : List Expense) :
    ∀ cats : List String, cats.Nodup →
      (cats.map (groupSumBy p store)).sum = spendBy p store cats := by
  intro cats
  induction cats with
  | nil => intro _; rw [spendBy_nil]; simp
  | cons c cs ih =>
    intro h
    rw [List.map_cons, List.sum_cons]
    have hmem : c ∉ cs := (List.nodup_cons.mp h).1
    have hc : cs.contains c = false := by simpa using hmem
    rw [spendBy_cons p c cs hc store, ih (List.nodup_cons.mp h).2]

theorem rowsBy_snd_sum (p : Expense → Bool) (store : List Expense) :
    ∀ cats : List String,
      ((rowsBy p store cats).map Prod.snd).sum
        = (cats.map (groupSumBy p store)).sum := by
  intro cats
  induction cats with
  | nil => simp [rowsBy]
  | cons c cs ih =>
    by_cases h : (store.filter (fun r => p r && r.category == c)).isEmpty = true
    · have hz : groupSumBy p store c = 0 := by
        unfold groupSumBy
        rw [List.isEmpty_iff.mp h]
        simp
      simp only [rowsBy, List.filterMap_cons, h, if_pos] at ih ⊢
      simpa [hz] using ih
    · simp only [rowsBy, List.filterMap_cons, h, Bool.false_eq_true,
        not_false_eq_true, if_neg] at ih ⊢
      simp only [List.map_cons, List.sum_cons]
      rw [ih]

theorem rowsBy_keys (p : Expense → Bool) (store : List Expense) :
    ∀ cats : List String,
      (rowsBy p store cats).map Prod.fst
        = cats.filter
            (fun c => !(store.filter (fun r => p r && r.category == c)).isEmpty) := by
  intro cats
  induction cats with
  | nil => simp [rowsBy]
  | cons c cs ih =>
    by_cases h : (store.filter (fun r => p r && r.category == c)).isEmpty = true
    · simp only [rowsBy, List.filterMap_cons, h, if_pos, List.filter_cons,
        Bool.not_true, Bool.false_eq_true, not_false_eq_true, if_neg] at ih ⊢
      exact ih
    · simp only [rowsBy, List.filterMap_cons, h, Bool.false_eq_true,
        not_false_eq_true, if_neg, List.filter_cons,
        Bool.not_eq_true'] at ih ⊢
      simp only [List.map_cons]
      rw [ih]
      simp [h]

theorem rowsBy_keys_nodup (p : Expense → Bool) (store : List Expense)
    (cats : List String) (h : cats.Nodup) :
    ((rowsBy p store cats).map Prod.fst).Nodup := by
  rw [rowsBy_keys]
  exact h.filter _

/-- Total of `sumForDate` as a direct sum over the matching expense rows. -/
theorem sumForDate_fst (store : List Expense) (sgDate : String)
    (cats : List String) (h : cats.Nodup) :
    (sumForDate store sgDate cats).1 = spendBy (onDate sgDate) store cats := by
  unfold sumForDate
  by_cases hc : cats.isEmpty = true
  · rw [List.isEmpty_iff.mp hc]
    simp [spendBy_nil]
  · simp only [hc, Bool.false_eq_true, not_false_eq_true, if_neg]
    unfold rowsForDate
    rw [aggDate_eq _ (rowsBy_keys_nodup (onDate sgDate) store cats h)]
    rw [rowsBy_snd_sum, map_groupSum_eq_spendBy (onDate sgDate) store cats h]

/-- Total of `sumForMonth` as a direct sum over the matching expense rows. -/
theorem sumForMonth_fst (store : List Expense) (sgMonth : String)
    (cats : List String) (h : cats.Nodup) :
    (sumForMonth store sgMonth cats).1 = spendBy (onMonth sgMonth) store cats := by
  unfold sumForMonth
  by_cases hc : cats.isEmpty = true
  · rw [List.isEmpty_iff.mp hc]
    simp [spendBy_nil]
  · simp only [hc, Bool.false_eq_true, not_false_eq_true, if_neg]
    unfold rowsForMonth
    rw [aggMonth_eq _ (rowsBy_keys_nodup (onMonth sgMonth) store cats h)]
    rw [rowsBy_snd_sum, map_groupSum_eq_spendBy (onMonth sgMonth) store cats h]

theorem spendBy_append (p : Expense → Bool) (store : List Expense)
    (e : Expense) (cats : List String) :
    spendBy p (store ++ [e]) cats
      = spendBy p store cats +
        (if p e && cats.contains e.category then e.amount else 0) := by
  unfold spendBy
  rw [List.filter_append, List.map_append, List.sum_append]
  by_cases h : (p e && cats.contains e.category) = true <;>
    simp_all [List.filter_cons]

example : DAILY_CATEGORIES = ["Meals", "Drinks"] := by decide
example : MONTHLY_CATEGORIES.Nodup := by decide

/-! ## C4: monthly summary identities -/

/-- C4: for every resolved (year, month) accepted by the validation and
every store, the monthly summary has fixedBudgetTotal equal to the sum of
the configured monthly budgets (independently of spend), totalBudgetTracked
equal to the daily-bucket budget plus fixedBudgetTotal, spentDaily and
spentMonthly equal to the direct row sums over daily-kind and monthly-kind
categories of the month (so other-kind spend contributes to neither),
totalSpentTracked equal to their sum, and remainingTracked equal to
totalBudgetTracked minus totalSpentTracked. -/
theorem monthly_summary_identities (now : SgNow) (store : List Expense)
    (y m : Int) (s : MonthlySummaryData)
    (h : getMonthlySummaryData now store (some y) (some m) = Except.ok s) :
    s.fixedBudgetTotal = (MONTHLY_CATEGORY_BUDGETS.map Prod.snd).sum ∧
    s.total_budget_tracked
      = monthlyDailyBucketBudget y m.toNat + s.fixedBudgetTotal ∧
    s.spent_daily = spendBy (onMonth (mkSgMonth y m.toNat)) store DAILY_CATEGORIES ∧
    s.spent_monthly
      = spendBy (onMonth (mkSgMonth y m.toNat)) store MONTHLY_CATEGORIES ∧
    s.total_spent_tracked = s.spent_daily + s.spent_monthly ∧
    s.remaining_tracked = s.total_budget_tracked - s.total_spent_tracked := by
  unfold getMonthlySummaryData at h
  simp only [Option.getD_some] at h
  split at h
  · cases h
  · injection h with h
    subst h
    refine ⟨?_, rfl, ?_, ?_, rfl, rfl⟩
    · show (MONTHLY_CATEGORY_BUDGETS.map Prod.snd).foldl (· + ·) 0
        = (MONTHLY_CATEGORY_BUDGETS.map Prod.snd).sum
      rw [List.sum_eq_foldl]
    · exact sumForMonth_fst store (mkSgMonth y m.toNat) DAILY_CATEGORIES
        (by decide)
    · exact sumForMonth_fst store (mkSgMonth y m.toNat) MONTHLY_CATEGORIES
        (by decide)

/-- Witness for C4: a March 2025 store with one daily-kind, one
monthly-kind and one other-kind expense. -/
def sampleStore : List Expense :=
  [mkExpense sampleNow 1 "Meals" 20,
   mkExpense sampleNow 1 "Groceries" 120,
   mkExpense sampleNow 1 "Other" 999]

theorem monthly_summary_identities_witness :
    (getMonthlySummaryData sampleNow sampleStore (some 2025) (some 3)
      = Except.ok (monthlySummaryCore sampleStore 2025 3)) ∧
    ((monthlySummaryCore sampleStore 2025 3).fixedBudgetTotal
        = (MONTHLY_CATEGORY_BUDGETS.map Prod.snd).sum ∧
      (monthlySummaryCore sampleStore 2025 3).total_budget_tracked
        = monthlyDailyBucketBudget 2025 (3 : Int).toNat +
            (monthlySummaryCore sampleStore 2025 3).fixedBudgetTotal ∧
      (monthlySummaryCore sampleStore 2025 3).spent_daily
        = spendBy (onMonth (mkSgMonth 2025 (3 : Int).toNat)) sampleStore
            DAILY_CATEGORIES ∧
      (monthlySummaryCore sampleStore 2025 3).spent_monthly
        = spendBy (onMonth (mkSgMonth 2025 (3 : Int).toNat)) sampleStore
            MONTHLY_CATEGORIES ∧
      (monthlySummaryCore sampleStore 2025 3).total_spent_tracked
        = (monthlySummaryCore sampleStore 2025 3).spent_daily +
            (monthlySummaryCore sampleStore 2025 3).spent_monthly ∧
      (monthlySummaryCore sampleStore 2025 3).remaining_tracked
        = (monthlySummaryCore sampleStore 2025 3).total_budget_tracked -
            (monthlySummaryCore sampleStore 2025 3).total_spent_tracked) :=
  ⟨by rfl,
    monthly_summary_identities sampleNow sampleStore 2025 3
      (monthlySummaryCore sampleStore 2025 3) (by rfl)⟩

/-! ## C8: daily summary round-trip under one insert -/

/-- C8: for every daily-kind category, date D in the accepted format, and
prior store, inserting one expense row of amount A for that category on D
makes dailySummary(D) report spent increased by exactly A and remaining
decreased by exactly A (negative A decreases spent, by the same equation). -/
theorem daily_roundtrip_insert (now : SgNow) (store : List Expense)
    (e : Expense) (D : String) (s s2 : DailySummaryData)
    (hpat : matchesDatePattern D = true) (hdate : e.tsSgDate = D)
    (hcat : DAILY_CATEGORIES.contains e.category = true)
    (h1 : getDailySummaryData now store (some D) = Except.ok s)
    (h2 : getDailySummaryData now (store ++ [e]) (some D) = Except.ok s2) :
    s2.spent_daily = s.spent_daily + e.amount ∧
    s2.remaining_daily = s.remaining_daily - e.amount := by
  have hne : D ≠ "" := by
    intro hD
    rw [hD] at hpat
    exact absurd hpat (by decide)
  unfold getDailySummaryData normalizeSgDateString at h1 h2
  simp only [hne, hpat, if_true, if_false, ite_true, ite_false,
    Except.ok.injEq] at h1 h2
  subst h1
  subst h2
  unfold dailySummaryCore
  have hspend :
      (sumForDate (store ++ [e]) D DAILY_CATEGORIES).1
        = (sumForDate store D DAILY_CATEGORIES).1 + e.amount := by
    rw [sumForDate_fst store D DAILY_CATEGORIES (by decide),
      sumForDate_fst (store ++ [e]) D DAILY_CATEGORIES (by decide),
      spendBy_append]
    have hcond : (onDate D e && DAILY_CATEGORIES.contains e.category) = true := by
      have hmem : e.category ∈ DAILY_CATEGORIES := by simpa using hcat
      simp [onDate, hdate, hmem]
    rw [if_pos hcond]
  refine ⟨hspend, ?_⟩
  show dailyBudgetForSgDateString D - (sumForDate (store ++ [e]) D DAILY_CATEGORIES).1
    = dailyBudgetForSgDateString D - (sumForDate store D DAILY_CATEGORIES).1 - e.amount
  rw [hspend]
  ring

/-- Witness for C8: a 3.50 Meals expense on 2025-03-15 over the empty store. -/
theorem daily_roundtrip_insert_witness :
    (matchesDatePattern "2025-03-15" = true ∧
      (mkExpense sampleNow 1 "Meals" (mkRat 7 2)).tsSgDate = "2025-03-15" ∧
      DAILY_CATEGORIES.contains
        (mkExpense sampleNow 1 "Meals" (mkRat 7 2)).category = true) ∧
    ((dailySummaryCore [mkExpense sampleNow 1 "Meals" (mkRat 7 2)]
          "2025-03-15").spent_daily
        = (dailySummaryCore [] "2025-03-15").spent_daily + mkRat 7 2 ∧
      (dailySummaryCore [mkExpense sampleNow 1 "Meals" (mkRat 7 2)]
          "2025-03-15").remaining_daily
        = (dailySummaryCore [] "2025-03-15").remaining_daily - mkRat 7 2) :=
  ⟨⟨by decide, by decide, by decide⟩, by
    have h := daily_roundtrip_insert sampleNow []
      (mkExpense sampleNow 1 "Meals" (mkRat 7 2)) "2025-03-15"
      (dailySummaryCore [] "2025-03-15")
      (dailySummaryCore [mkExpense sampleNow 1 "Meals" (mkRat 7 2)]
        "2025-03-15")
      (by decide) (by decide) (by decide) (by rfl) (by rfl)
    simpa using h⟩

/-! ## C2: date validation of the daily summary -/

/-- C2 counterexample: "2025-13-40" is not a real calendar date, yet
`normalizeSgDateString` accepts it and the daily summary answers `.ok`
instead of rejecting with InvalidDate. -/
theorem invalid_calendar_date_accepted :
    isRealCalendarDate "2025-13-40" = false ∧
    normalizeSgDateString "2025-13-40" = some "2025-13-40" ∧
    getDailySummaryData sampleNow [] (some "2025-13-40")
      = Except.ok (dailySummaryCore [] "2025-13-40") :=
  ⟨by decide, by decide, by rfl⟩

/-- C2 amended: an explicitly supplied non-empty date string is rejected
with the InvalidDate client error — without consulting the store — exactly
when it fails the four-digits dash two-digits dash two-digits pattern;
every string matching the pattern is accepted (whether or not it denotes a
real calendar date). -/
theorem daily_summary_date_validation (now : SgNow) (store store2 : List Expense)
    (ds : String) (hne : ds ≠ "") :
    (matchesDatePattern ds = false →
        getDailySummaryData now store (some ds)
          = Except.error "Invalid date format, use YYYY-MM-DD" ∧
        getDailySummaryData now store (some ds)
          = getDailySummaryData now store2 (some ds)) ∧
    (matchesDatePattern ds = true →
        getDailySummaryData now store (some ds)
          = Except.ok (dailySummaryCore store ds)) := by
  constructor
  · intro hbad
    unfold getDailySummaryData normalizeSgDateString
    simp [hne, hbad]
  · intro hgood
    unfold getDailySummaryData normalizeSgDateString
    simp [hne, hgood]

/-- Witness for C2 (amended) at the malformed string "2025/03/15". -/
theorem daily_summary_date_validation_witness :
    ("2025/03/15" ≠ "" ∧ matchesDatePattern "2025/03/15" = false) ∧
    (getDailySummaryData sampleNow [] (some "2025/03/15")
        = Except.error "Invalid date format, use YYYY-MM-DD" ∧
      getDailySummaryData sampleNow [] (some "2025/03/15")
        = getDailySummaryData sampleNow sampleStore (some "2025/03/15")) :=
  ⟨⟨by decide, by decide⟩,
    (daily_summary_date_validation sampleNow [] sampleStore "2025/03/15"
        (by decide)).1 (by decide)⟩

/-! ## C1: category selection and the JS `in` operator -/

/-- C1 is violated by the code: in step choose_category the input
"toString" is not a configured category name, yet `text in CATEGORIES`
finds the inherited `Object.prototype.toString` property and the machine
advances to await_amount with pendingCategory "toString". A configured
name ("Meals") advances as specified and a genuinely unknown name
("Pizza") leaves the state unchanged. -/
theorem choose_category_prototype_key_bug :
    (CATEGORIES.map Prod.fst).contains "toString" = false ∧
    handleTelegramUpdate sampleNow 1 ⟨[], some ⟨"choose_category", none⟩⟩
        "toString"
      = (⟨[], some ⟨"await_amount", some "toString"⟩⟩,
          [Reply.amountPrompt "toString"]) ∧
    handleTelegramUpdate sampleNow 1 ⟨[], some ⟨"choose_category", none⟩⟩
        "Meals"
      = (⟨[], some ⟨"await_amount", some "Meals"⟩⟩,
          [Reply.amountPrompt "Meals"]) ∧
    handleTelegramUpdate sampleNow 1 ⟨[], some ⟨"choose_category", none⟩⟩
        "Pizza"
      = (⟨[], some ⟨"choose_category", none⟩⟩, [Reply.chooseAgainPrompt]) :=
  ⟨by decide, by decide, by decide, by decide⟩

/-! ## C3: amount entry -/

/-- C3 counterexample: the empty input (a Telegram message with no text
field arrives as "") is not parseable as a decimal number, yet in state
await_amount the handler records an expense of amount 0 and resets the
state, because JS `Number("")` is 0. -/
theorem empty_input_records_zero_expense :
    specFiniteDecimal "" = none ∧
    handleTelegramUpdate sampleNow 1 ⟨[], some ⟨"await_amount", some "Meals"⟩⟩ ""
      = (⟨[mkExpense sampleNow 1 "Meals" 0], none⟩, [Reply.recorded 0 "Meals"]) :=
  ⟨by decide, by decide⟩

/-- C3 amended: in state await_amount with a pending category, a non-command
input whose JS `Number` conversion is finite (which covers every plain
decimal numeral, but also the empty string, hexadecimal and exponent forms)
appends exactly one expense record with that category and the converted
amount and resets the state to Idle; an input whose conversion is NaN or an
infinity leaves the database unchanged and re-prompts. -/
theorem await_amount_number_conversion (now : SgNow) (uid : Int) (db : Db)
    (textRaw : String) (c : String)
    (hst : db.userState = some ⟨"await_amount", some c⟩) (hc : c ≠ "")
    (hns : startsWithSlash (jsTrim textRaw) = false) :
    (∀ a : ℚ, jsStringToNumberFinite (jsTrim textRaw) = some a →
        handleTelegramUpdate now uid db textRaw
          = ({ expenses := db.expenses ++ [mkExpense now uid c a],
                userState := none },
              [Reply.recorded a c])) ∧
    (jsStringToNumberFinite (jsTrim textRaw) = none →
        handleTelegramUpdate now uid db textRaw
          = (db, [Reply.invalidNumberPrompt])) := by
  constructor
  · intro a ha
    unfold handleTelegramUpdate
    simp [hns, hst, truthyCategory, hc, ha]
  · intro ha
    unfold handleTelegramUpdate
    simp [hns, hst, truthyCategory, hc, ha]

/-- Witness for C3 (amended): "12.50" records 12.50 in the pending
category and resets to Idle. -/
theorem await_amount_number_conversion_witness :
    ((⟨[], some ⟨"await_amount", some "Meals"⟩⟩ : Db).userState
        = some ⟨"await_amount", some "Meals"⟩ ∧
      "Meals" ≠ "" ∧ startsWithSlash (jsTrim "12.50") = false ∧
      jsStringToNumberFinite (jsTrim "12.50") = some (mkRat 25 2)) ∧
    handleTelegramUpdate sampleNow 1 ⟨[], some ⟨"await_amount", some "Meals"⟩⟩
        "12.50"
      = ({ expenses := [] ++ [mkExpense sampleNow 1 "Meals" (mkRat 25 2)],
            userState := none },
          [Reply.recorded (mkRat 25 2) "Meals"]) :=
  ⟨⟨by decide, by decide, by decide, by decide⟩,
    (await_amount_number_conversion sampleNow 1
        ⟨[], some ⟨"await_amount", some "Meals"⟩⟩ "12.50" "Meals" (by decide)
        (by decide) (by decide)).1 (mkRat 25 2) (by decide)⟩

/-! ## C5: the pendingCategory/step invariant -/

/-- The invariant of the user_state row: a pending category is present
exactly when the step is await_amount (absent row = Idle, invariant holds
vacuously). -/
def stateInvB : Option UserState → Bool
  | none => true
  | some st => st.category.isSome == (st.step == "await_amount")

/-- C5: every message processed by the handler — commands (which clear the
row or write choose_category with no category), category selection (which
writes await_amount with a category), amount entry (which clears the row on
success) and all fall-through paths — preserves the invariant. -/
theorem user_state_invariant_preserved (now : SgNow) (uid : Int) (db : Db)
    (textRaw : String) (h : stateInvB db.userState = true) :
    stateInvB (handleTelegramUpdate now uid db textRaw).1.userState = true := by
  unfold handleTelegramUpdate
  by_cases hs : startsWithSlash (jsTrim textRaw) = true
  · simp only [hs, if_true]
    by_cases h1 : (firstToken (jsTrim textRaw) == "/start") = true
    · simp [h1, stateInvB]
    · by_cases h2 : (firstToken (jsTrim textRaw) == "/add") = true
      · simp [h1, h2, stateInvB]
      · by_cases h3 : (firstToken (jsTrim textRaw) == "/today") = true
        · simp [h1, h2, h3, stateInvB]
        · by_cases h4 : (firstToken (jsTrim textRaw) == "/month") = true
          · simp [h1, h2, h3, h4, stateInvB]
          · simp [h1, h2, h3, h4, stateInvB]
  · simp only [hs, Bool.false_eq_true, not_false_eq_true, if_neg]
    match hdb : db.userState with
    | none => simpa [hdb] using h
    | some st =>
      by_cases h1 : (st.step == "choose_category") = true
      · by_cases h2 : jsInCategories (jsTrim textRaw) = true
        · simp [h1, h2, stateInvB]
        · simp only [h1, h2, if_true, if_false, ite_true, ite_false,
            Bool.false_eq_true, not_false_eq_true, if_neg]
          simpa [hdb] using h
      · by_cases h2 : (st.step == "await_amount" && truthyCategory st.category)
            = true
        · match hn : jsStringToNumberFinite (jsTrim textRaw) with
          | none =>
            simp only [h1, h2, hn, Bool.false_eq_true, not_false_eq_true,
              if_neg, if_true, ite_true]
            simpa [hdb] using h
          | some a =>
            simp [h1, h2, hn, stateInvB]
        · simp only [h1, h2, Bool.false_eq_true, not_false_eq_true, if_neg]
          simpa [hdb] using h

/-- Witness for C5: from Idle (no row), "/add" writes choose_category with
no pending category and the invariant still holds. -/
theorem user_state_invariant_preserved_witness :
    stateInvB ((⟨[], none⟩ : Db).userState) = true ∧
    stateInvB
        (handleTelegramUpdate sampleNow 1 ⟨[], none⟩ "/add").1.userState
      = true :=
  ⟨by decide,
    user_state_invariant_preserved sampleNow 1 ⟨[], none⟩ "/add" (by decide)⟩

/-! ## C9: commands reset the state before dispatch -/

/-- C9: for every message whose trimmed text starts with "/", the handler
first clears the user's state row and only then dispatches the command, so
its result — new database and replies alike — is the same as if the user
had been Idle: an in-progress entry can never influence a command. -/
theorem command_resets_state_before_dispatch (now : SgNow) (uid : Int)
    (db : Db) (textRaw : String)
    (h : startsWithSlash (jsTrim textRaw) = true) :
    handleTelegramUpdate now uid db textRaw
      = handleTelegramUpdate now uid ⟨db.expenses, none⟩ textRaw := by
  unfold handleTelegramUpdate
  simp [h]

/-- Witness for C9: "/month" sent mid-entry behaves exactly as from Idle. -/
theorem command_resets_state_before_dispatch_witness :
    startsWithSlash (jsTrim "/month") = true ∧
    handleTelegramUpdate sampleNow 1 ⟨[], some ⟨"await_amount", some "Meals"⟩⟩
        "/month"
      = handleTelegramUpdate sampleNow 1 ⟨[], none⟩ "/month" :=
  ⟨by decide,
    command_resets_state_before_dispatch sampleNow 1
      ⟨[], some ⟨"await_amount", some "Meals"⟩⟩ "/month" (by decide)⟩

end BudgetBot
